import Mathlib

/-!
Verification of the natural-language specification of the
`Rick-more-Rick-invertPolygontraider` repository (Firebase Cloud Functions
relaying MetaApi calls) against a shallow embedding of its two
implementation files:

  * `src/functions/index.js`              (firebase-functions v2 style) — embedded
    below at top level;
  * `src/pagina_Invert/functions/index.js` (firebase-functions v1 style) — embedded
    in namespace `Pagina`.

Embedding conventions:

  * JavaScript JSON values are modelled by the inductive `JVal`; JS truthiness
    by `JVal.truthy`; property access `o.k` by `JVal.get o k : Option JVal`
    (`none` = `undefined`, including access on non-objects; access on `null`
    throws in JS, which only ever happens under a `try` whose catch takes the
    same fallback, so `none` is a faithful merge).
  * The network is an oracle: each `fetch` performed by one `metaFetch` call
    reads `env i : FetchResult` for its `i`-th attempt.  An `HttpResponse`
    carries the numeric status, the already-parsed `retry-after` header
    (`retryAfter : Option Int`, the value of `parseInt(h.get("retry-after") || "5", 10)`
    with `none` standing for `NaN`, i.e. an unparseable header; an absent or
    empty header is `some 5`), and the response body as `Option JVal`
    (`none` = body text that is not parseable JSON).  URLs, the auth-token
    header and the serialized request body do not influence control flow and
    are not modelled; the oracle stands for whatever the named endpoint
    returns.
  * Timestamps (`FieldValue.serverTimestamp()`) are a `now : Nat` parameter;
    sleeps are recorded in milliseconds rather than performed.
  * The Firestore document of the calling user is `Option UserDoc`
    (`none` = the document does not exist); fields deleted by
    `FieldValue.delete()` become `none`.  Unmodelled extra fields of the
    document are the association list `other`, which no operation writes.
-/

/-- JSON values as delivered by `res.json()` / `JSON.parse`. -/
inductive JVal : Type where
  | jnull : JVal
  | jbool : Bool → JVal
  | jnum : Int → JVal
  | jstr : String → JVal
  | jarr : List JVal → JVal
  | jobj : List (String × JVal) → JVal

/-- JS property access `v[k]`: `none` models `undefined` (missing key or
non-object receiver). -/
def JVal.get : JVal → String → Option JVal
  | .jobj fs, k => fs.lookup k
  | _, _ => none

/-- JS truthiness of a JSON value. -/
def JVal.truthy : JVal → Bool
  | .jnull => false
  | .jbool b => b
  | .jnum n => n != 0
  | .jstr s => s != ""
  | .jarr _ => true
  | .jobj _ => true

/-- `Array.isArray`. -/
def JVal.isArr : JVal → Bool
  | .jarr _ => true
  | _ => false

/-- Whether `v` is exactly the string `s` (JS `===` against a string literal). -/
def JVal.isStr (v : JVal) (s : String) : Bool :=
  match v with
  | .jstr t => t == s
  | _ => false

mutual

/-- JS `String(v)` for JSON values (used when a non-string lands in
`new Error(msg)`); an array renders as its elements joined by commas. -/
def JVal.render : JVal → String
  | .jnull => "null"
  | .jbool true => "true"
  | .jbool false => "false"
  | .jnum n => toString n
  | .jstr s => s
  | .jarr xs => JVal.renderList xs
  | .jobj _ => "[object Object]"

/-- Helper for `JVal.render`: JS `Array.prototype.toString` joining. -/
def JVal.renderList : List JVal → String
  | [] => ""
  | [x] => x.render
  | x :: xs => x.render ++ "," ++ JVal.renderList xs

end

/-- One HTTP response as observed by `metaFetch` (see the header comment for
the meaning of each field). -/
structure HttpResponse : Type where
  status : Nat
  retryAfter : Option Int
  body : Option JVal

/-- Outcome of one `fetch`: a response, or a network-level rejection. -/
inductive FetchResult : Type where
  | success : HttpResponse → FetchResult
  | failure : String → FetchResult

/-- The error taxonomy of `metaFetch`.  In JS all four are `Error` objects:
`upstream` has an `err.status` field, `stillProcessing` is the fixed throw
after the retry loop, `transport` is a rejection of `fetch` itself, `badJson`
is the rejection of `res.json()` on a 2xx response whose body is not JSON. -/
inductive MetaErr : Type where
  | upstream : Nat → String → MetaErr
  | stillProcessing : MetaErr
  | transport : String → MetaErr
  | badJson : MetaErr
  deriving DecidableEq

/-- The Spanish message thrown when the 202 retry budget is exhausted. -/
def stillProcessingMsg : String := "MetaApi sigue procesando. Reintenta en unos segundos."

/-- Modelled message of the `res.json()` SyntaxError (its exact JS text is
engine-dependent and never inspected by the code). -/
def badJsonMsg : String := "Unexpected token in JSON"

/-- `err.message` of each error kind. -/
def MetaErr.message : MetaErr → String
  | .upstream _ m => m
  | .stillProcessing => stillProcessingMsg
  | .transport e => e
  | .badJson => badJsonMsg

/-- The error message built on a non-ok, non-202 response:
`let msg = "HTTP " + status; try { msg = JSON.parse(text).message || msg } catch {}`.
A missing body-JSON, a missing `message` field or a falsy `message` value all
leave the fallback in place; a truthy non-string `message` is rendered by
`String` when stored into `Error`. -/
def upstreamMsg (r : HttpResponse) : String :=
  let fallback := "HTTP " ++ toString r.status
  match r.body with
  | none => fallback
  | some b =>
    match b.get "message" with
    | none => fallback
    | some v => if v.truthy then v.render else fallback

/-- Milliseconds slept on a 202: `setTimeout(r, Math.min(wait, 15) * 1000)`,
where `wait` is the parsed header (`none` = `NaN`, which `setTimeout` treats
as 0, as it does any negative delay). -/
def sleepMs : Option Int → Nat
  | none => 0
  | some w => (max 0 (min w 15) * 1000).toNat

/-- `res.ok` of the WHATWG fetch API: status in the range 200–299. -/
def httpOk (status : Nat) : Bool := 200 ≤ status && status ≤ 299

/-- The observable trace of one `metaFetch` call: its result, how many
`fetch` attempts it performed, and the sleeps it executed. -/
structure FetchTrace : Type where
  result : Except MetaErr JVal
  attempts : Nat
  sleepsMs : List Nat

/-- The body of `metaFetch`'s `for (let i = 0; i <= maxRetries; i++)` loop.
`i` is the number of attempts already performed, `fuel` the number of loop
iterations still allowed; falling off the loop throws the still-processing
error. -/
def metaFetchGo (env : Nat → FetchResult) : Nat → Nat → List Nat → FetchTrace
  | i, 0, sleeps => ⟨.error .stillProcessing, i, sleeps⟩
  | i, fuel + 1, sleeps =>
    match env i with
    | .failure e => ⟨.error (.transport e), i + 1, sleeps⟩
    | .success r =>
      if r.status == 202 then
        metaFetchGo env (i + 1) fuel (sleeps ++ [sleepMs r.retryAfter])
      else if httpOk r.status then
        match r.body with
        | some b => ⟨.ok b, i + 1, sleeps⟩
        | none => ⟨.error .badJson, i + 1, sleeps⟩
      else
        ⟨.error (.upstream r.status (upstreamMsg r)), i + 1, sleeps⟩

/-- `metaFetch(url, token, opts)` with `maxRetries = opts.retries ?? 5`:
at most `maxRetries + 1` iterations of the attempt loop. -/
def metaFetch (env : Nat → FetchResult) (maxRetries : Nat) : FetchTrace :=
  metaFetchGo env 0 (maxRetries + 1) []

/-- A `metaFetch` call with `retries: 0` consumes exactly one oracle entry;
this is its result as a function of that entry. -/
def metaFetch1 (r : FetchResult) : Except MetaErr JVal :=
  (metaFetch (fun _ => r) 0).result

/-- Whether a fetch outcome is a 202 response. -/
def FetchResult.is202 : FetchResult → Bool
  | .success r => r.status == 202
  | .failure _ => false

/-- The per-user Firestore document (`users/{uid}`): every field the two
implementation files ever read or write, plus `other` for any fields written
by nothing in this repository.  `none` = field absent. -/
structure UserDoc : Type where
  email : Option String := none
  metaApiAccountId : Option String := none
  brokerServer : Option String := none
  mtLogin : Option String := none
  platform : Option String := none
  connectedAt : Option Nat := none
  updatedAt : Option Nat := none
  disconnectedAt : Option Nat := none
  other : List (String × String) := []
  deriving DecidableEq

/-- `doc.exists && doc.data().metaApiAccountId` (truthy): the linked broker
account id, if any.  An empty string is falsy in JS. -/
def linkedId : Option UserDoc → Option String
  | none => none
  | some u =>
    match u.metaApiAccountId with
    | none => none
    | some s => if s == "" then none else some s

/-- The verified caller context delivered by the invocation transport;
`email` is `request.auth.token.email` (`none` = undefined). -/
structure AuthCtx : Type where
  email : Option String := none

/-- `token.email || ""`. -/
def AuthCtx.emailOrEmpty (a : AuthCtx) : String :=
  match a.email with
  | some s => s
  | none => ""

/-- A failure surfaced to the caller: an `HttpsError(code, message)` thrown
deliberately, or a raw `MetaErr` escaping the handler. -/
inductive OpErr : Type where
  | https : String → String → OpErr
  | meta : MetaErr → OpErr
  deriving DecidableEq

def unauthMsg : String := "Inicia sesion primero."

def missingDataMsg : String := "Faltan datos: servidor, login o password."

def notFoundMsg : String := "No tienes cuenta de broker conectada."

def alreadyLinkedMsg : String := "Cuenta ya vinculada"

def alreadyExistsMsg : String := "Esta cuenta MT5 ya esta registrada."

def connectedMsg : String := "Cuenta conectada"

def deployPendingMsg : String := "Cuenta creada. Desplegando, intenta en 1-2 min."

/-- `requireAuth` of `src/functions/index.js`. -/
def requireAuth (auth : Option AuthCtx) : Except OpErr AuthCtx :=
  match auth with
  | none => .error (.https "unauthenticated" unauthMsg)
  | some a => .ok a

/-- `getAccountId` of `src/functions/index.js` (shared verbatim by the
`pagina_Invert` file, message included). -/
def getAccountId (store : Option UserDoc) : Except OpErr String :=
  match linkedId store with
  | none => .error (.https "not-found" notFoundMsg)
  | some id => .ok id

/-- The input object of `connectBroker`.  `brokerServer`, `mtLogin` and
`mtPassword` are modelled as strings with `""` for absent-or-empty (both are
falsy, and both trip the validation identically); `platform` keeps the
absent/empty distinction only through `platformOr`. -/
structure ConnectData : Type where
  brokerServer : String
  mtLogin : String
  mtPassword : String
  platform : Option String := none

/-- `platform || "mt5"`. -/
def platformOr (p : Option String) : String :=
  match p with
  | some s => if s == "" then "mt5" else s
  | none => "mt5"

/-- `account.id` of the create-account response, as stored into Firestore
(a string upstream; any other JSON shape is rendered). -/
def accountIdOf (account : JVal) : String :=
  match account.get "id" with
  | some v => v.render
  | none => "undefined"

/-- `err.message.includes("already exists")`. -/
def mentionsAlreadyExists (m : String) : Bool :=
  (m.splitOn "already exists").length > 1

/-- The upstream oracle of one `connectBroker` invocation.  Every `metaFetch`
issued by `connectBroker` uses `retries: 0`, so each call consumes a single
`FetchResult`: one for the existing-account lookup (if taken), one for the
create POST (if reached), and one per status poll. -/
structure ConnectEnv : Type where
  lookupExisting : FetchResult
  create : FetchResult
  poll : Nat → FetchResult

/-- The success payload of `connectBroker`.  `accountId`, `state` and
`deployed` are `none` when the corresponding key is absent from the returned
object (the two implementation files differ on `accountId`). -/
structure ConnectSuccess : Type where
  success : Bool
  message : String
  accountId : Option String := none
  state : Option JVal := none
  deployed : Option Bool := none

/-- Everything observable about one `connectBroker` invocation. -/
structure ConnectOutcome : Type where
  result : Except OpErr ConnectSuccess
  store : Option UserDoc
  lookupIssued : Bool
  createIssued : Bool
  polls : Nat

/-- `st.state === "DEPLOYED" || st.connectionStatus === "CONNECTED"`. -/
def pollDeployed (st : JVal) : Bool :=
  (match st.get "state" with
   | some v => v.isStr "DEPLOYED"
   | none => false) ||
  (match st.get "connectionStatus" with
   | some v => v.isStr "CONNECTED"
   | none => false)

/-- One poll attempt succeeds in stopping the loop iff the lookup returned ok
and reports deployed/connected; every failure is swallowed (`catch (_) {}`). -/
def pollStops (poll : Nat → FetchResult) (i : Nat) : Bool :=
  match metaFetch1 (poll i) with
  | .ok st => pollDeployed st
  | .error _ => false

/-- The deploy-wait loop `for (var i = 0; i < 30; i++)`: sleeps 2 s, polls
with `retries: 0`, stops on deployed/connected, swallows lookup failures.
Returns the `deployed` flag and the number of polls performed.  `i` counts
polls already done, `fuel` iterations left. -/
def connectPoll (poll : Nat → FetchResult) : Nat → Nat → Bool × Nat
  | i, 0 => (false, i)
  | i, fuel + 1 =>
    if pollStops poll i then (true, i + 1)
    else connectPoll poll (i + 1) fuel

/-- The Firestore `set(..., { merge: true })` performed by `connectBroker`
after a successful create: updates the listed fields, preserves the rest of
an existing document. -/
def connectUpsert (store : Option UserDoc) (a : AuthCtx) (data : ConnectData)
    (accId : String) (now : Nat) : UserDoc :=
  let base := match store with
    | some u => u
    | none => {}
  { base with
    email := some a.emailOrEmpty
    metaApiAccountId := some accId
    brokerServer := some data.brokerServer
    mtLogin := some data.mtLogin
    platform := some (platformOr data.platform)
    connectedAt := some now
    updatedAt := some now }

/-- `connectBroker` of `src/functions/index.js` (the firebase-functions v2
file), from the auth guard through validation, the idempotent existing-link
check, account creation, the merge upsert and the deploy-wait loop. -/
def connectBroker (auth : Option AuthCtx) (data : ConnectData)
    (store : Option UserDoc) (env : ConnectEnv) (now : Nat) : ConnectOutcome :=
  match requireAuth auth with
  | .error e => ⟨.error e, store, false, false, 0⟩
  | .ok a =>
    if data.brokerServer == "" || data.mtLogin == "" || data.mtPassword == "" then
      ⟨.error (.https "invalid-argument" missingDataMsg), store, false, false, 0⟩
    else
      let afterLookup : Bool → ConnectOutcome := fun lookupIssued =>
        match metaFetch1 env.create with
        | .error err =>
          if mentionsAlreadyExists err.message then
            ⟨.error (.https "already-exists" alreadyExistsMsg), store, lookupIssued, true, 0⟩
          else
            ⟨.error (.https "internal" ("Error MetaApi: " ++ err.message)), store, lookupIssued, true, 0⟩
        | .ok account =>
          let accId := accountIdOf account
          let newDoc := connectUpsert store a data accId now
          let dp := connectPoll env.poll 0 30
          ⟨.ok { success := true
                 message := if dp.1 then connectedMsg else deployPendingMsg
                 deployed := some dp.1 },
           some newDoc, lookupIssued, true, dp.2⟩
      match linkedId store with
      | some _existingId =>
        match metaFetch1 env.lookupExisting with
        | .ok acct =>
          ⟨.ok { success := true
                 message := alreadyLinkedMsg
                 state := acct.get "state" },
           store, true, false, 0⟩
        | .error _ => afterLookup true
      | none => afterLookup false

/-- Result object of `getUserStatus`; absent keys are `none`. -/
structure StatusResult : Type where
  connected : Bool
  brokerServer : Option String := none
  mtLogin : Option String := none
  platform : Option String := none
  deriving DecidableEq

/-- `getUserStatus` of `src/functions/index.js`. -/
def getUserStatus (auth : Option AuthCtx) (store : Option UserDoc) :
    Except OpErr StatusResult :=
  match requireAuth auth with
  | .error e => .error e
  | .ok _ =>
    match store with
    | none => .ok { connected := false }
    | some u =>
      match linkedId store with
      | none => .ok { connected := false }
      | some _ =>
        .ok { connected := true
              brokerServer := u.brokerServer
              mtLogin := u.mtLogin
              platform := u.platform }

/-- `getAccountInfo` of `src/functions/index.js`: one default-retries
`metaFetch` against the account-information endpoint, returned verbatim;
any `metaFetch` error escapes the handler raw. -/
def getAccountInfo (auth : Option AuthCtx) (store : Option UserDoc)
    (env : Nat → FetchResult) : Except OpErr JVal :=
  match requireAuth auth with
  | .error e => .error e
  | .ok _ =>
    match getAccountId store with
    | .error e => .error e
    | .ok _ =>
      match (metaFetch env 5).result with
      | .ok v => .ok v
      | .error e => .error (.meta e)

/-- The upstream oracle of one `getMetrics` invocation: the metrics call
(default retries) and the enable-metastats call (`retries: 0`). -/
structure MetricsEnv : Type where
  metrics : Nat → FetchResult
  enable : FetchResult

/-- Success payload of `getMetrics`.  `metrics` is `JVal.jnull` in the
enabling branch (`metrics: null`); `reason` is `none` when the key is
absent. -/
structure MetricsResult : Type where
  ok : Bool
  metrics : JVal
  source : String
  reason : Option String := none

/-- Observable outcome of one `getMetrics` invocation. -/
structure MetricsOutcome : Type where
  result : Except OpErr MetricsResult
  enableCalls : Nat

/-- `res.metrics || res`. -/
def metricsOf (res : JVal) : JVal :=
  match res.get "metrics" with
  | some v => if v.truthy then v else res
  | none => res

def metastatsEnablingReason : String := "metastats_enabling"

/-- `getMetrics` of `src/functions/index.js`: try the metastats metrics
endpoint; on an error whose `status` is 403, fire one enable-metastats
request (its own failure swallowed) and return the non-error enabling
payload; on any other error re-throw as `HttpsError("internal",
err.message)`. -/
def getMetrics (auth : Option AuthCtx) (store : Option UserDoc)
    (env : MetricsEnv) : MetricsOutcome :=
  match requireAuth auth with
  | .error e => ⟨.error e, 0⟩
  | .ok _ =>
    match getAccountId store with
    | .error e => ⟨.error e, 0⟩
    | .ok _ =>
      match (metaFetch env.metrics 5).result with
      | .ok res =>
        ⟨.ok { ok := true, metrics := metricsOf res, source := "metastats" }, 0⟩
      | .error err =>
        match err with
        | .upstream 403 _ =>
          ⟨.ok { ok := false, metrics := .jnull, source := "none"
                 reason := some metastatsEnablingReason }, 1⟩
        | _ => ⟨.error (.https "internal" err.message), 0⟩

/-- The upstream oracle of one `getTrades` invocation: the metastats
historical-trades call and the client-api history-deals call, both with
default retries. -/
structure TradesEnv : Type where
  primary : Nat → FetchResult
  secondary : Nat → FetchResult

/-- Success payload of `getTrades`. -/
structure TradesResult : Type where
  trades : JVal
  source : String

/-- Observable outcome of one `getTrades` invocation. -/
structure TradesOutcome : Type where
  result : Except OpErr TradesResult
  secondaryIssued : Bool

/-- `res.trades || (Array.isArray(res) ? res : [])`. -/
def tradesOfPrimary (res : JVal) : JVal :=
  match res.get "trades" with
  | some v => if v.truthy then v else (if res.isArr then res else .jarr [])
  | none => if res.isArr then res else .jarr []

/-- `Array.isArray(res) ? res : (res.deals || [])`. -/
def tradesOfSecondary (res : JVal) : JVal :=
  if res.isArr then res
  else
    match res.get "deals" with
    | some v => if v.truthy then v else .jarr []
    | none => .jarr []

/-- `getTrades` of `src/functions/index.js`: metastats first (all of its
failures swallowed), client-api history-deals as fallback, whose failure
becomes `HttpsError("internal", err.message)`.  The date-range inputs only
shape the request URLs and are absorbed into the oracle. -/
def getTrades (auth : Option AuthCtx) (store : Option UserDoc)
    (env : TradesEnv) : TradesOutcome :=
  match requireAuth auth with
  | .error e => ⟨.error e, false⟩
  | .ok _ =>
    match getAccountId store with
    | .error e => ⟨.error e, false⟩
    | .ok _ =>
      match (metaFetch env.primary 5).result with
      | .ok res =>
        ⟨.ok { trades := tradesOfPrimary res, source := "metastats" }, false⟩
      | .error _ =>
        match (metaFetch env.secondary 5).result with
        | .ok res =>
          ⟨.ok { trades := tradesOfSecondary res, source := "client" }, true⟩
        | .error err => ⟨.error (.https "internal" err.message), true⟩

/-- `res.dailyGrowth || (Array.isArray(res) ? res : [])`. -/
def dailyGrowthOf (res : JVal) : JVal :=
  match res.get "dailyGrowth" with
  | some v => if v.truthy then v else (if res.isArr then res else .jarr [])
  | none => if res.isArr then res else .jarr []

/-- `getDailyGrowth` of `src/functions/index.js`: one default-retries call;
any failure collapses to `{ data: [] }`. -/
def getDailyGrowth (auth : Option AuthCtx) (store : Option UserDoc)
    (env : Nat → FetchResult) : Except OpErr JVal :=
  match requireAuth auth with
  | .error e => .error e
  | .ok _ =>
    match getAccountId store with
    | .error e => .error e
    | .ok _ =>
      match (metaFetch env 5).result with
      | .ok res => .ok (dailyGrowthOf res)
      | .error _ => .ok (.jarr [])

/-- Observable outcome of one `disconnectBroker` invocation: the returned
`{ ok: true }` (modelled as `Bool`), the document after the call, and how
many network attempts were made. -/
structure DisconnectOutcome : Type where
  result : Except OpErr Bool
  store : Option UserDoc
  networkCalls : Nat

/-- `disconnectBroker` of `src/functions/index.js`: immediate `{ ok: true }`
with no network call when no link is stored; otherwise one best-effort
no-retry DELETE (failure swallowed), then a Firestore `update` deleting
`metaApiAccountId`, `brokerServer` and `mtLogin` and stamping
`disconnectedAt`.  The `platform`, `email`, `connectedAt` and `updatedAt`
fields are not touched by the update. -/
def disconnectBroker (auth : Option AuthCtx) (store : Option UserDoc)
    (env : Nat → FetchResult) (now : Nat) : DisconnectOutcome :=
  match requireAuth auth with
  | .error e => ⟨.error e, store, 0⟩
  | .ok _ =>
    match store with
    | none => ⟨.ok true, none, 0⟩
    | some u =>
      match linkedId (some u) with
      | none => ⟨.ok true, some u, 0⟩
      | some _id =>
        let t := metaFetch env 0
        ⟨.ok true,
         some { u with
                metaApiAccountId := none
                brokerServer := none
                mtLogin := none
                disconnectedAt := some now },
         t.attempts⟩

namespace Pagina

/-!
Embedding of `src/pagina_Invert/functions/index.js` (the firebase-functions
v1 file).  Its `metaFetch` and `getAccountId` are textually identical to the
v2 file's (modulo `metaFetch` reading the token from module config instead of
a parameter, and `node-fetch` instead of global fetch — neither of which is
part of the model), so the shared `metaFetch`/`metaFetch1`/`getAccountId`
definitions above embed both files' helpers.  `requireAuth` and several
user-facing strings differ, and the already-linked `connectBroker` response
additionally carries `accountId`; those are redefined here.
-/

def unauthMsg : String := "Inicia sesión primero."

def alreadyExistsMsg : String := "Esta cuenta MT5 ya está registrada. Contacta soporte."

def connectedMsg : String := "Cuenta conectada exitosamente"

def deployPendingMsg : String := "Cuenta creada. Se está desplegando, intenta en 1-2 min."

/-- `requireAuth` of the pagina_Invert file (accented message). -/
def requireAuth (auth : Option AuthCtx) : Except OpErr AuthCtx :=
  match auth with
  | none => .error (.https "unauthenticated" Pagina.unauthMsg)
  | some a => .ok a

/-- `connectBroker` of the pagina_Invert file.  Same control flow as the v2
file; the already-linked response additionally includes
`accountId: existingId`, and the human-readable strings differ. -/
def connectBroker (auth : Option AuthCtx) (data : ConnectData)
    (store : Option UserDoc) (env : ConnectEnv) (now : Nat) : ConnectOutcome :=
  match Pagina.requireAuth auth with
  | .error e => ⟨.error e, store, false, false, 0⟩
  | .ok a =>
    if data.brokerServer == "" || data.mtLogin == "" || data.mtPassword == "" then
      ⟨.error (.https "invalid-argument" missingDataMsg), store, false, false, 0⟩
    else
      let afterLookup : Bool → ConnectOutcome := fun lookupIssued =>
        match metaFetch1 env.create with
        | .error err =>
          if mentionsAlreadyExists err.message then
            ⟨.error (.https "already-exists" Pagina.alreadyExistsMsg), store, lookupIssued, true, 0⟩
          else
            ⟨.error (.https "internal" ("Error MetaApi: " ++ err.message)), store, lookupIssued, true, 0⟩
        | .ok account =>
          let accId := accountIdOf account
          let newDoc := connectUpsert store a data accId now
          let dp := connectPoll env.poll 0 30
          ⟨.ok { success := true
                 message := if dp.1 then Pagina.connectedMsg else Pagina.deployPendingMsg
                 deployed := some dp.1 },
           some newDoc, lookupIssued, true, dp.2⟩
      match linkedId store with
      | some existingId =>
        match metaFetch1 env.lookupExisting with
        | .ok acct =>
          ⟨.ok { success := true
                 message := alreadyLinkedMsg
                 accountId := some existingId
                 state := acct.get "state" },
           store, true, false, 0⟩
        | .error _ => afterLookup true
      | none => afterLookup false

/-- `getUserStatus` of the pagina_Invert file. -/
def getUserStatus (auth : Option AuthCtx) (store : Option UserDoc) :
    Except OpErr StatusResult :=
  match Pagina.requireAuth auth with
  | .error e => .error e
  | .ok _ =>
    match store with
    | none => .ok { connected := false }
    | some u =>
      match linkedId store with
      | none => .ok { connected := false }
      | some _ =>
        .ok { connected := true
              brokerServer := u.brokerServer
              mtLogin := u.mtLogin
              platform := u.platform }

/-- `getAccountInfo` of the pagina_Invert file. -/
def getAccountInfo (auth : Option AuthCtx) (store : Option UserDoc)
    (env : Nat → FetchResult) : Except OpErr JVal :=
  match Pagina.requireAuth auth with
  | .error e => .error e
  | .ok _ =>
    match getAccountId store with
    | .error e => .error e
    | .ok _ =>
      match (metaFetch env 5).result with
      | .ok v => .ok v
      | .error e => .error (.meta e)

/-- `getMetrics` of the pagina_Invert file. -/
def getMetrics (auth : Option AuthCtx) (store : Option UserDoc)
    (env : MetricsEnv) : MetricsOutcome :=
  match Pagina.requireAuth auth with
  | .error e => ⟨.error e, 0⟩
  | .ok _ =>
    match getAccountId store with
    | .error e => ⟨.error e, 0⟩
    | .ok _ =>
      match (metaFetch env.metrics 5).result with
      | .ok res =>
        ⟨.ok { ok := true, metrics := metricsOf res, source := "metastats" }, 0⟩
      | .error err =>
        match err with
        | .upstream 403 _ =>
          ⟨.ok { ok := false, metrics := .jnull, source := "none"
                 reason := some metastatsEnablingReason }, 1⟩
        | _ => ⟨.error (.https "internal" err.message), 0⟩

/-- `getTrades` of the pagina_Invert file. -/
def getTrades (auth : Option AuthCtx) (store : Option UserDoc)
    (env : TradesEnv) : TradesOutcome :=
  match Pagina.requireAuth auth with
  | .error e => ⟨.error e, false⟩
  | .ok _ =>
    match getAccountId store with
    | .error e => ⟨.error e, false⟩
    | .ok _ =>
      match (metaFetch env.primary 5).result with
      | .ok res =>
        ⟨.ok { trades := tradesOfPrimary res, source := "metastats" }, false⟩
      | .error _ =>
        match (metaFetch env.secondary 5).result with
        | .ok res =>
          ⟨.ok { trades := tradesOfSecondary res, source := "client" }, true⟩
        | .error err => ⟨.error (.https "internal" err.message), true⟩

/-- `getDailyGrowth` of the pagina_Invert file. -/
def getDailyGrowth (auth : Option AuthCtx) (store : Option UserDoc)
    (env : Nat → FetchResult) : Except OpErr JVal :=
  match Pagina.requireAuth auth with
  | .error e => .error e
  | .ok _ =>
    match getAccountId store with
    | .error e => .error e
    | .ok _ =>
      match (metaFetch env 5).result with
      | .ok res => .ok (dailyGrowthOf res)
      | .error _ => .ok (.jarr [])

/-- `disconnectBroker` of the pagina_Invert file (deletes the same three
fields as the v2 file; `platform` is likewise left in place). -/
def disconnectBroker (auth : Option AuthCtx) (store : Option UserDoc)
    (env : Nat → FetchResult) (now : Nat) : DisconnectOutcome :=
  match Pagina.requireAuth auth with
  | .error e => ⟨.error e, store, 0⟩
  | .ok _ =>
    match store with
    | none => ⟨.ok true, none, 0⟩
    | some u =>
      match linkedId (some u) with
      | none => ⟨.ok true, some u, 0⟩
      | some _id =>
        let t := metaFetch env 0
        ⟨.ok true,
         some { u with
                metaApiAccountId := none
                brokerServer := none
                mtLogin := none
                disconnectedAt := some now },
         t.attempts⟩

end Pagina

/-! ### Lemmas about the retry loop -/

lemma sleepMs_le_15000 (x : Option Int) : sleepMs x ≤ 15000 := by
  cases x with
  | none => simp [sleepMs]
  | some w => simp only [sleepMs]; omega

lemma metaFetchGo_attempts_le (env : Nat → FetchResult) :
    ∀ fuel i sleeps, (metaFetchGo env i fuel sleeps).attempts ≤ i + fuel := by
  intro fuel
  induction fuel with
  | zero => intro i sleeps; simp [metaFetchGo]
  | succ n ih =>
    intro i sleeps
    simp only [metaFetchGo]
    cases env i with
    | failure e => simp
    | success r =>
      by_cases h202 : (r.status == 202) = true
      · simp only [h202, if_true]
        have := ih (i + 1) (sleeps ++ [sleepMs r.retryAfter])
        omega
      · simp only [h202]
        by_cases hok : httpOk r.status = true
        · simp only [hok, if_true, if_false]
          cases r.body <;> simp
        · simp only [hok, if_false]
          simp

lemma metaFetchGo_attempts_ge (env : Nat → FetchResult) :
    ∀ fuel i sleeps, 1 ≤ fuel → i + 1 ≤ (metaFetchGo env i fuel sleeps).attempts := by
  intro fuel
  induction fuel with
  | zero => intro i sleeps h; omega
  | succ n ih =>
    intro i sleeps _
    simp only [metaFetchGo]
    cases env i with
    | failure e => simp
    | success r =>
      by_cases h202 : (r.status == 202) = true
      · simp only [h202, if_true]
        rcases Nat.eq_zero_or_pos n with hn | hn
        · subst hn; simp [metaFetchGo]
        · have := ih (i + 1) (sleeps ++ [sleepMs r.retryAfter]) hn
          omega
      · simp only [h202]
        by_cases hok : httpOk r.status = true
        · simp only [hok, if_true, if_false]
          cases r.body <;> simp
        · simp only [hok, if_false]; simp

lemma metaFetchGo_sleeps_le (env : Nat → FetchResult) :
    ∀ fuel i sleeps, (∀ s ∈ sleeps, s ≤ 15000) →
      ∀ s ∈ (metaFetchGo env i fuel sleeps).sleepsMs, s ≤ 15000 := by
  intro fuel
  induction fuel with
  | zero => intro i sleeps h; simpa [metaFetchGo] using h
  | succ n ih =>
    intro i sleeps h
    simp only [metaFetchGo]
    cases env i with
    | failure e => simpa using h
    | success r =>
      by_cases h202 : (r.status == 202) = true
      · simp only [h202, if_true]
        apply ih
        intro s hs
        rcases List.mem_append.mp hs with hs | hs
        · exact h s hs
        · simp at hs; subst hs; exact sleepMs_le_15000 _
      · simp only [h202]
        by_cases hok : httpOk r.status = true
        · simp only [hok, if_true, if_false]
          cases r.body <;> simpa using h
        · simp only [hok, if_false]; simpa using h

lemma metaFetchGo_all202 (env : Nat → FetchResult) :
    ∀ fuel i sleeps, (∀ j, j < fuel → (env (i + j)).is202 = true) →
      (metaFetchGo env i fuel sleeps).result = .error .stillProcessing ∧
      (metaFetchGo env i fuel sleeps).attempts = i + fuel := by
  intro fuel
  induction fuel with
  | zero => intro i sleeps _; simp [metaFetchGo]
  | succ n ih =>
    intro i sleeps h
    have h0 : (env i).is202 = true := by simpa using h 0 (Nat.succ_pos n)
    simp only [metaFetchGo]
    cases he : env i with
    | failure e => rw [he] at h0; simp [FetchResult.is202] at h0
    | success r =>
      rw [he] at h0
      simp only [FetchResult.is202] at h0
      simp only [h0, if_true]
      have := ih (i + 1) (sleeps ++ [sleepMs r.retryAfter]) (by
        intro j hj
        have := h (j + 1) (by omega)
        simpa [Nat.add_assoc, Nat.add_comm 1 j] using this)
      exact ⟨this.1, by omega⟩

/-! ### Claims about the Upstream Client (`metaFetch`) -/

/-- An oracle answering every attempt with a 202 response
(`retry-after: 5`, empty JSON body). -/
def env202 : Nat → FetchResult := fun _ => .success ⟨202, some 5, some (.jobj [])⟩

/-- C2, counterexample to the claim as stated: with `retries: 0`
(`maxRetries = 0`, used by every no-retry call site) and an all-202 upstream,
`metaFetch` performs 1 request attempt, which exceeds the claimed bound of
"at most `maxRetries` attempts in total". -/
theorem claim_C2_counterexample :
    (metaFetch env202 0).attempts = 1 ∧
    (metaFetch env202 0).result = .error .stillProcessing ∧
    ¬ (metaFetch env202 0).attempts ≤ 0 :=
  ⟨rfl, rfl, by decide⟩

/-- C2 (amended): when every response is 202, `metaFetch` performs exactly
`maxRetries + 1` request attempts (one more than the claim's bound, matching
`for (let i = 0; i <= maxRetries; i++)`) and then fails with the
still-processing error, which is a different error kind from every
`upstream` (UpstreamError) and every `transport` (TransportError) value. -/
theorem claim_C2 (env : Nat → FetchResult) (maxRetries : Nat)
    (h : ∀ i, i ≤ maxRetries → (env i).is202 = true) :
    (metaFetch env maxRetries).attempts = maxRetries + 1 ∧
    (metaFetch env maxRetries).result = .error .stillProcessing ∧
    (∀ s m, MetaErr.stillProcessing ≠ MetaErr.upstream s m) ∧
    (∀ e, MetaErr.stillProcessing ≠ MetaErr.transport e) := by
  have hall : ∀ j, j < maxRetries + 1 → (env (0 + j)).is202 = true := by
    intro j hj
    simpa using h j (by omega)
  have hres := metaFetchGo_all202 env (maxRetries + 1) 0 [] hall
  refine ⟨by simpa [metaFetch] using hres.2, by simpa [metaFetch] using hres.1, ?_, ?_⟩
  · intro s m hc; cases hc
  · intro e hc; cases hc

/-- C2 witness: the amended claim at `maxRetries = 2` against the all-202
oracle. -/
theorem claim_C2_witness :
    (metaFetch env202 2).attempts = 2 + 1 ∧
    (metaFetch env202 2).result = .error .stillProcessing ∧
    (∀ s m, MetaErr.stillProcessing ≠ MetaErr.upstream s m) ∧
    (∀ e, MetaErr.stillProcessing ≠ MetaErr.transport e) :=
  claim_C2 env202 2 (fun _ _ => rfl)

/-- C3, counterexample to the claim as stated: a call with `retries: 0`
(as issued by `connectBroker` and `disconnectBroker`) whose first response
is 202 performs exactly one attempt — it never retries, against the claimed
"retries at least once". -/
theorem claim_C3_counterexample :
    (env202 0).is202 = true ∧
    (metaFetch env202 0).attempts = 1 ∧
    ¬ 2 ≤ (metaFetch env202 0).attempts :=
  ⟨rfl, rfl, by decide⟩

/-- C3 (amended): when the first response is 202 and `maxRetries ≥ 1`, the
client retries at least once (≥ 2 attempts), performs at most
`maxRetries + 1` attempts in total, and every sleep it executes is at most
15 seconds (15000 ms) regardless of the retry-after hint. -/
theorem claim_C3 (env : Nat → FetchResult) (maxRetries : Nat)
    (hm : 1 ≤ maxRetries) (h0 : (env 0).is202 = true) :
    2 ≤ (metaFetch env maxRetries).attempts ∧
    (metaFetch env maxRetries).attempts ≤ maxRetries + 1 ∧
    ∀ s ∈ (metaFetch env maxRetries).sleepsMs, s ≤ 15000 := by
  refine ⟨?_, ?_, ?_⟩
  · cases he : env 0 with
    | failure e => rw [he] at h0; simp [FetchResult.is202] at h0
    | success r =>
      rw [he] at h0
      simp only [FetchResult.is202] at h0
      have hstep : metaFetch env maxRetries =
          metaFetchGo env 1 maxRetries [sleepMs r.retryAfter] := by
        cases maxRetries with
        | zero => omega
        | succ n =>
          simp only [metaFetch, metaFetchGo, he, h0, if_true]
          rfl
      rw [hstep]
      have := metaFetchGo_attempts_ge env maxRetries 1 [sleepMs r.retryAfter] hm
      omega
  · have := metaFetchGo_attempts_le env (maxRetries + 1) 0 []
    simpa [metaFetch] using this
  · exact metaFetchGo_sleeps_le env (maxRetries + 1) 0 [] (by simp)

/-- C3 witness: the amended claim at `maxRetries = 1` against the all-202
oracle. -/
theorem claim_C3_witness :
    2 ≤ (metaFetch env202 1).attempts ∧
    (metaFetch env202 1).attempts ≤ 1 + 1 ∧
    ∀ s ∈ (metaFetch env202 1).sleepsMs, s ≤ 15000 :=
  claim_C3 env202 1 (by decide) rfl

/-- A 400 response whose JSON body has a `message` field holding the empty
string. -/
def emptyMsgBody : JVal := .jobj [("message", .jstr "")]

/-- An oracle answering every attempt with that 400 response. -/
def env400 : Nat → FetchResult := fun _ => .success ⟨400, none, some emptyMsgBody⟩

/-- C4, counterexample to the claim as stated: on a 400 response whose body
*does* have a `message` field (holding `""`), the error message is the
fallback `"HTTP 400"`, not the value of the field — `JSON.parse(text).message
|| msg` keeps the fallback for any falsy `message` value. -/
theorem claim_C4_counterexample :
    emptyMsgBody.get "message" = some (.jstr "") ∧
    (metaFetch env400 5).result = .error (.upstream 400 "HTTP 400") ∧
    "HTTP 400" ≠ "" :=
  ⟨rfl, rfl, by decide⟩

/-- C4 (amended): on a first response that is neither 2xx nor 202, the call
fails with an `upstream` error carrying the numeric status and a message
taken from the body's `message` field when that field is present and truthy,
falling back to `"HTTP {status}"` when the body is not parseable JSON, lacks
a `message` field, or its `message` value is falsy (such as the empty
string). -/
theorem claim_C4 (env : Nat → FetchResult) (maxRetries : Nat) (r : HttpResponse)
    (h0 : env 0 = .success r) (hok : httpOk r.status = false)
    (h202 : (r.status == 202) = false) :
    (metaFetch env maxRetries).result = .error (.upstream r.status (upstreamMsg r)) ∧
    (r.body = none → upstreamMsg r = "HTTP " ++ toString r.status) ∧
    (∀ b, r.body = some b → b.get "message" = none →
      upstreamMsg r = "HTTP " ++ toString r.status) ∧
    (∀ b v, r.body = some b → b.get "message" = some v → v.truthy = true →
      upstreamMsg r = v.render) ∧
    (∀ b v, r.body = some b → b.get "message" = some v → v.truthy = false →
      upstreamMsg r = "HTTP " ++ toString r.status) := by
  refine ⟨?_, ?_, ?_, ?_, ?_⟩
  · simp only [metaFetch, metaFetchGo, h0, h202, hok]
    simp
  · intro hb; simp [upstreamMsg, hb]
  · intro b hb hm; simp [upstreamMsg, hb, hm]
  · intro b v hb hm ht; simp [upstreamMsg, hb, hm, ht]
  · intro b v hb hm ht; simp [upstreamMsg, hb, hm, ht]

/-- C4 witness: the amended claim against the 400-with-empty-message
oracle. -/
theorem claim_C4_witness :
    (metaFetch env400 5).result =
      .error (.upstream (400 : Nat) (upstreamMsg ⟨400, none, some emptyMsgBody⟩)) ∧
    ((some emptyMsgBody : Option JVal) = none →
      upstreamMsg ⟨400, none, some emptyMsgBody⟩ = "HTTP " ++ toString (400 : Nat)) ∧
    (∀ b, (some emptyMsgBody : Option JVal) = some b → b.get "message" = none →
      upstreamMsg ⟨400, none, some emptyMsgBody⟩ = "HTTP " ++ toString (400 : Nat)) ∧
    (∀ b v, (some emptyMsgBody : Option JVal) = some b → b.get "message" = some v →
      v.truthy = true → upstreamMsg ⟨400, none, some emptyMsgBody⟩ = v.render) ∧
    (∀ b v, (some emptyMsgBody : Option JVal) = some b → b.get "message" = some v →
      v.truthy = false →
      upstreamMsg ⟨400, none, some emptyMsgBody⟩ = "HTTP " ++ toString (400 : Nat)) :=
  claim_C4 env400 5 ⟨400, none, some emptyMsgBody⟩ rfl rfl rfl

/-! ### Claims about the Account Workflow -/

lemma metaFetch_retries0_attempts (env : Nat → FetchResult) :
    (metaFetch env 0).attempts = 1 := by
  simp only [metaFetch, metaFetchGo]
  cases env 0 with
  | failure e => rfl
  | success r =>
    by_cases h : (r.status == 202) = true
    · simp [h, metaFetchGo]
    · by_cases hok : httpOk r.status = true
      · simp only [h, hok, if_true, if_false]
        cases r.body <;> rfl
      · simp [h, hok]

/-- The stored document used by the C1 theorems: a fully-populated link. -/
def c1doc : UserDoc :=
  { email := some "user@example.com"
    metaApiAccountId := some "acc-1"
    brokerServer := some "Broker-Live"
    mtLogin := some "12345"
    platform := some "mt5"
    connectedAt := some 10
    updatedAt := some 10 }

/-- An oracle whose DELETE answer is a plain 200 with an empty JSON body. -/
def delOkEnv : Nat → FetchResult := fun _ => .success ⟨200, none, some (.jobj [])⟩

/-- C1, counterexample to the claim as stated: after a disconnect of a fully
populated link, the `platform` field is still present — the Firestore
`update` deletes only `metaApiAccountId`, `brokerServer` and `mtLogin`, not
`platform`. -/
theorem claim_C1_counterexample :
    (disconnectBroker (some {}) (some c1doc) delOkEnv 99).result = .ok true ∧
    ((disconnectBroker (some {}) (some c1doc) delOkEnv 99).store.bind
      UserDoc.platform) = some "mt5" :=
  ⟨rfl, rfl⟩

/-- C1 (amended): for every authenticated caller, disconnect returns
`{ ok: true }`; with no stored broker-account identifier it performs no
network call and leaves the store unchanged; with a stored link it makes
exactly one upstream attempt, removes exactly the account-identifier,
server and login fields, stamps `disconnectedAt`, and leaves every other
field — `platform` included, as well as `email` and the connection
timestamps — unchanged. -/
theorem claim_C1 (auth : AuthCtx) (store : Option UserDoc)
    (env : Nat → FetchResult) (now : Nat) :
    (disconnectBroker (some auth) store env now).result = .ok true ∧
    (linkedId store = none →
      (disconnectBroker (some auth) store env now).store = store ∧
      (disconnectBroker (some auth) store env now).networkCalls = 0) ∧
    (∀ u, store = some u → linkedId store ≠ none →
      (disconnectBroker (some auth) store env now).networkCalls = 1 ∧
      (disconnectBroker (some auth) store env now).store =
        some { u with
               metaApiAccountId := none
               brokerServer := none
               mtLogin := none
               disconnectedAt := some now }) := by
  refine ⟨?_, ?_, ?_⟩
  · cases store with
    | none => rfl
    | some u =>
      simp only [disconnectBroker, requireAuth]
      cases h : linkedId (some u) <;> simp
  · intro hnone
    cases store with
    | none => exact ⟨rfl, rfl⟩
    | some u =>
      simp only [disconnectBroker, requireAuth, hnone]
      simp
  · intro u hu hlink
    subst hu
    cases h : linkedId (some u) with
    | none => exact absurd h hlink
    | some id =>
      simp only [disconnectBroker, requireAuth, h]
      exact ⟨metaFetch_retries0_attempts env, trivial⟩

/-- C1 witness: the amended claim at the concrete populated document. -/
theorem claim_C1_witness :
    (disconnectBroker (some {}) (some c1doc) delOkEnv 7).result = .ok true ∧
    (disconnectBroker (some {}) (some c1doc) delOkEnv 7).networkCalls = 1 ∧
    (disconnectBroker (some {}) (some c1doc) delOkEnv 7).store =
      some { c1doc with
             metaApiAccountId := none
             brokerServer := none
             mtLogin := none
             disconnectedAt := some 7 } := by
  have h := claim_C1 {} (some c1doc) delOkEnv 7
  exact ⟨h.1, (h.2.2 c1doc rfl (by decide)).1, (h.2.2 c1doc rfl (by decide)).2⟩

/-- C5 (confirmed): with a stored link and a successful no-retry remote
lookup, `connectBroker` short-circuits: it returns the already-linked
success payload, issues no create request (`createIssued = false`), performs
no polling and leaves the stored document untouched. -/
theorem claim_C5 (auth : AuthCtx) (data : ConnectData) (store : Option UserDoc)
    (env : ConnectEnv) (now : Nat) (id : String) (acct : JVal)
    (hvalid : (data.brokerServer == "" || data.mtLogin == "" || data.mtPassword == "") = false)
    (hlink : linkedId store = some id)
    (hlookup : metaFetch1 env.lookupExisting = .ok acct) :
    connectBroker (some auth) data store env now =
      ⟨.ok { success := true, message := alreadyLinkedMsg, state := acct.get "state" },
       store, true, false, 0⟩ := by
  simp only [connectBroker, requireAuth, hvalid, hlink, hlookup]
  simp

/-- The stored document used by the C5 witness. -/
def c5doc : UserDoc := { metaApiAccountId := some "acc-5" }

/-- The connect input used by the C5 witness. -/
def c5data : ConnectData := { brokerServer := "Srv", mtLogin := "111", mtPassword := "pw" }

/-- The remote-account payload used by the C5 witness. -/
def c5acct : JVal := .jobj [("state", .jstr "DEPLOYED")]

/-- The oracle used by the C5 witness: the existing-account lookup answers
200; the create and poll endpoints are never reached. -/
def c5env : ConnectEnv :=
  { lookupExisting := .success ⟨200, none, some c5acct⟩
    create := .failure "never-called"
    poll := fun _ => .failure "never-called" }

/-- C5 witness: the claim at a concrete linked user. -/
theorem claim_C5_witness :
    connectBroker (some {}) c5data (some c5doc) c5env 3 =
      ⟨.ok { success := true, message := alreadyLinkedMsg, state := c5acct.get "state" },
       some c5doc, true, false, 0⟩ :=
  claim_C5 {} c5data (some c5doc) c5env 3 "acc-5" c5acct rfl rfl rfl

/-- C9 (confirmed): in the existing-link verification, a 202 answer to the
no-retry lookup exhausts the single-attempt budget immediately — exactly one
attempt is made and `metaFetch` throws the still-processing error — and
`connectBroker` swallows that error and proceeds to issue a create request
for an account that still exists upstream. -/
theorem claim_C9 (auth : AuthCtx) (data : ConnectData) (store : Option UserDoc)
    (env : ConnectEnv) (now : Nat) (id : String)
    (hvalid : (data.brokerServer == "" || data.mtLogin == "" || data.mtPassword == "") = false)
    (hlink : linkedId store = some id)
    (h202 : env.lookupExisting.is202 = true) :
    metaFetch1 env.lookupExisting = .error .stillProcessing ∧
    (metaFetch (fun _ => env.lookupExisting) 0).attempts = 1 ∧
    (connectBroker (some auth) data store env now).createIssued = true := by
  have hsp : metaFetch1 env.lookupExisting = .error .stillProcessing := by
    cases he : env.lookupExisting with
    | failure e => rw [he] at h202; simp [FetchResult.is202] at h202
    | success r =>
      rw [he] at h202
      simp only [FetchResult.is202] at h202
      simp [metaFetch1, metaFetch, metaFetchGo, h202]
  refine ⟨hsp, metaFetch_retries0_attempts _, ?_⟩
  simp only [connectBroker, requireAuth, hvalid, hlink, hsp]
  cases hc : metaFetch1 env.create with
  | ok a => simp [hc]
  | error e =>
    simp only [hc]
    by_cases hae : mentionsAlreadyExists e.message = true
    · simp [hae]
    · simp [hae]

/-- The stored document used by the C9 witness. -/
def c9doc : UserDoc := { metaApiAccountId := some "acc-9" }

/-- The oracle used by the C9 witness: the lookup answers 202, the create
answers 200 with an id, polling always fails. -/
def c9env : ConnectEnv :=
  { lookupExisting := .success ⟨202, some 3, some (.jobj [])⟩
    create := .success ⟨200, none, some (.jobj [("id", .jstr "acc-9-new")])⟩
    poll := fun _ => .failure "down" }

/-- C9 witness: the claim at a concrete linked user whose lookup answers
202. -/
theorem claim_C9_witness :
    metaFetch1 c9env.lookupExisting = .error .stillProcessing ∧
    (metaFetch (fun _ => c9env.lookupExisting) 0).attempts = 1 ∧
    (connectBroker (some {}) c5data (some c9doc) c9env 4).createIssued = true :=
  claim_C9 {} c5data (some c9doc) c9env 4 "acc-9" rfl rfl rfl

lemma connectPoll_polls_le (p : Nat → FetchResult) :
    ∀ fuel i, (connectPoll p i fuel).2 ≤ i + fuel := by
  intro fuel
  induction fuel with
  | zero => intro i; simp [connectPoll]
  | succ n ih =>
    intro i
    simp only [connectPoll]
    cases h : pollStops p i with
    | true =>
      rw [if_pos rfl]
      simp
    | false =>
      rw [if_neg Bool.false_ne_true]
      have := ih (i + 1)
      omega

lemma connectPoll_true_iff (p : Nat → FetchResult) :
    ∀ fuel i, (connectPoll p i fuel).1 = true ↔
      ∃ j, i ≤ j ∧ j < i + fuel ∧ pollStops p j = true := by
  intro fuel
  induction fuel with
  | zero =>
    intro i
    simp only [connectPoll]
    constructor
    · intro h; cases h
    · rintro ⟨j, h1, h2, _⟩; omega
  | succ n ih =>
    intro i
    simp only [connectPoll]
    cases h : pollStops p i with
    | true =>
      rw [if_pos rfl]
      constructor
      · intro _; exact ⟨i, le_refl i, by omega, h⟩
      · intro _; rfl
    | false =>
      rw [if_neg Bool.false_ne_true]
      rw [ih (i + 1)]
      constructor
      · rintro ⟨j, h1, h2, h3⟩; exact ⟨j, by omega, by omega, h3⟩
      · rintro ⟨j, h1, h2, h3⟩
        refine ⟨j, ?_, by omega, h3⟩
        rcases Nat.eq_or_lt_of_le h1 with he | hl
        · subst he; rw [h3] at h; cases h
        · omega

/-- C8 (confirmed): once the create request has succeeded, `connectBroker`
never fails — it upserts the link, polls at most 30 times (swallowing every
lookup failure), sets the `deployed` flag exactly when some poll among the
first 30 reports a deployed lifecycle state or a connected status, and
returns the `{success: true, deployed, message}` payload in both the
deployed and the budget-exhausted cases. -/
theorem claim_C8 (auth : AuthCtx) (data : ConnectData) (store : Option UserDoc)
    (env : ConnectEnv) (now : Nat) (account : JVal)
    (hvalid : (data.brokerServer == "" || data.mtLogin == "" || data.mtPassword == "") = false)
    (hpath : linkedId store = none ∨ ∃ e, metaFetch1 env.lookupExisting = .error e)
    (hcreate : metaFetch1 env.create = .ok account) :
    ∃ d : Bool,
      (connectBroker (some auth) data store env now).result =
        .ok { success := true
              message := if d then connectedMsg else deployPendingMsg
              deployed := some d } ∧
      (connectBroker (some auth) data store env now).store =
        some (connectUpsert store auth data (accountIdOf account) now) ∧
      (connectBroker (some auth) data store env now).polls ≤ 30 ∧
      (d = true ↔ ∃ i, i < 30 ∧ pollStops env.poll i = true) := by
  have hpoll := connectPoll_polls_le env.poll 30 0
  have hiff := connectPoll_true_iff env.poll 30 0
  refine ⟨(connectPoll env.poll 0 30).1, ?_⟩
  have hgoal : (connectBroker (some auth) data store env now) =
      ⟨.ok { success := true
             message := if (connectPoll env.poll 0 30).1 then connectedMsg else deployPendingMsg
             deployed := some (connectPoll env.poll 0 30).1 },
       some (connectUpsert store auth data (accountIdOf account) now),
       (linkedId store).isSome, true, (connectPoll env.poll 0 30).2⟩ := by
    cases hl : linkedId store with
    | none =>
      simp only [connectBroker, requireAuth, hvalid, hl, hcreate]
      simp
    | some id =>
      rcases hpath with h | ⟨e, he⟩
      · rw [hl] at h; cases h
      · simp only [connectBroker, requireAuth, hvalid, hl, he, hcreate]
        simp
  rw [hgoal]
  refine ⟨rfl, rfl, by simpa using hpoll, ?_⟩
  rw [hiff]
  constructor
  · rintro ⟨j, _, h2, h3⟩; exact ⟨j, by omega, h3⟩
  · rintro ⟨j, h1, h2⟩; exact ⟨j, by omega, by omega, h2⟩

/-- The connect input used by the C8 witness. -/
def c8data : ConnectData := { brokerServer := "Srv", mtLogin := "222", mtPassword := "pw" }

/-- The create response body used by the C8 witness. -/
def c8acct : JVal := .jobj [("id", .jstr "acc-8")]

/-- The oracle used by the C8 witness: no stored link, create succeeds with
201, every poll attempt fails at the network level. -/
def c8env : ConnectEnv :=
  { lookupExisting := .failure "unused"
    create := .success ⟨201, none, some c8acct⟩
    poll := fun _ => .failure "down" }

/-- C8 witness: the claim at a concrete fresh user whose polls all fail —
the call still succeeds, with the budget-exhausted payload. -/
theorem claim_C8_witness :
    ∃ d : Bool,
      (connectBroker (some {}) c8data none c8env 5).result =
        .ok { success := true
              message := if d then connectedMsg else deployPendingMsg
              deployed := some d } ∧
      (connectBroker (some {}) c8data none c8env 5).store =
        some (connectUpsert none {} c8data (accountIdOf c8acct) 5) ∧
      (connectBroker (some {}) c8data none c8env 5).polls ≤ 30 ∧
      (d = true ↔ ∃ i, i < 30 ∧ pollStops c8env.poll i = true) :=
  claim_C8 {} c8data none c8env 5 c8acct rfl (Or.inl rfl) rfl

/-- C6 (confirmed): when the metrics call fails with upstream status 403,
`getMetrics` issues exactly one enable-statistics request (whose outcome,
part of the oracle, does not influence the result at all — any enable
failure is swallowed) and returns exactly
`{ok: false, metrics: null, source: "none", reason: "metastats_enabling"}`;
when the metrics call fails with any other upstream status, the operation
fails with an internal error carrying the upstream message and issues no
enable request. -/
theorem claim_C6 (auth : AuthCtx) (store : Option UserDoc) (env : MetricsEnv)
    (id : String) (hlink : linkedId store = some id) :
    (∀ m, (metaFetch env.metrics 5).result = .error (.upstream 403 m) →
      getMetrics (some auth) store env =
        ⟨.ok { ok := false, metrics := .jnull, source := "none",
               reason := some metastatsEnablingReason }, 1⟩) ∧
    (∀ s m, (metaFetch env.metrics 5).result = .error (.upstream s m) → s ≠ 403 →
      getMetrics (some auth) store env = ⟨.error (.https "internal" m), 0⟩) := by
  constructor
  · intro m hm
    simp [getMetrics, requireAuth, getAccountId, hlink, hm]
  · intro s m hm hs
    simp only [getMetrics, requireAuth, getAccountId, hlink, hm]
    split
    · rename_i heq
      injection heq with h1 h2
      exact absurd h1 hs
    · simp [MetaErr.message]

/-- The stored document used by the C6 witness. -/
def c6doc : UserDoc := { metaApiAccountId := some "acc-6" }

/-- The oracle used by the C6 witness: metrics always answers 403 with a
message body; the enable request fails at the network level (and is
swallowed). -/
def c6env : MetricsEnv :=
  { metrics := fun _ => .success ⟨403, none, some (.jobj [("message", .jstr "forbidden")])⟩
    enable := .failure "enable-down" }

/-- C6 witness: the 403 branch at a concrete linked user. -/
theorem claim_C6_witness :
    getMetrics (some {}) (some c6doc) c6env =
      ⟨.ok { ok := false, metrics := .jnull, source := "none",
             reason := some metastatsEnablingReason }, 1⟩ :=
  (claim_C6 {} (some c6doc) c6env "acc-6" rfl).1 "forbidden" rfl

/-- C7 (confirmed): `getTrades` queries the secondary history-deals source
iff the primary historical-trades call fails; a primary success is returned
as-is (normalized) without touching the secondary; when both fail the
operation fails with an internal error carrying the secondary source's
message. -/
theorem claim_C7 (auth : AuthCtx) (store : Option UserDoc) (env : TradesEnv)
    (id : String) (hlink : linkedId store = some id) :
    ((getTrades (some auth) store env).secondaryIssued = true ↔
      ∃ e, (metaFetch env.primary 5).result = .error e) ∧
    (∀ v, (metaFetch env.primary 5).result = .ok v →
      getTrades (some auth) store env =
        ⟨.ok { trades := tradesOfPrimary v, source := "metastats" }, false⟩) ∧
    (∀ e w, (metaFetch env.primary 5).result = .error e →
      (metaFetch env.secondary 5).result = .ok w →
      getTrades (some auth) store env =
        ⟨.ok { trades := tradesOfSecondary w, source := "client" }, true⟩) ∧
    (∀ e e2, (metaFetch env.primary 5).result = .error e →
      (metaFetch env.secondary 5).result = .error e2 →
      getTrades (some auth) store env =
        ⟨.error (.https "internal" e2.message), true⟩) := by
  refine ⟨?_, ?_, ?_, ?_⟩
  · cases hp : (metaFetch env.primary 5).result with
    | ok v =>
      simp only [getTrades, requireAuth, getAccountId, hlink, hp]
      constructor
      · intro h; cases h
      · rintro ⟨e, he⟩; cases he
    | error e =>
      simp only [getTrades, requireAuth, getAccountId, hlink, hp]
      cases hs : (metaFetch env.secondary 5).result with
      | ok w => simp
      | error e2 => simp
  · intro v hp
    simp [getTrades, requireAuth, getAccountId, hlink, hp]
  · intro e w hp hs
    simp [getTrades, requireAuth, getAccountId, hlink, hp, hs]
  · intro e e2 hp hs
    simp [getTrades, requireAuth, getAccountId, hlink, hp, hs]

/-- The stored document used by the C7 witness. -/
def c7doc : UserDoc := { metaApiAccountId := some "acc-7" }

/-- The primary response body used by the C7 witness. -/
def c7trades : JVal := .jobj [("trades", .jarr [.jobj [("profit", .jnum 3)]])]

/-- The oracle used by the C7 witness: the primary source succeeds, the
secondary would fail but is never queried. -/
def c7env : TradesEnv :=
  { primary := fun _ => .success ⟨200, none, some c7trades⟩
    secondary := fun _ => .failure "unused" }

/-- C7 witness: the primary-success branch at a concrete linked user. -/
theorem claim_C7_witness :
    getTrades (some {}) (some c7doc) c7env =
      ⟨.ok { trades := tradesOfPrimary c7trades, source := "metastats" }, false⟩ :=
  (claim_C7 {} (some c7doc) c7env "acc-7" rfl).2.1 c7trades rfl

/-! ### C10: relating the two implementation files -/

/-- Erase the human-readable message of a surfaced failure, keeping its
kind. -/
def OpErr.core : OpErr → OpErr
  | .https c _ => .https c ""
  | .meta e => .meta e

/-- Erase failure messages of an operation result. -/
def eraseErr {α : Type} : Except OpErr α → Except OpErr α
  | .error e => .error e.core
  | .ok a => .ok a

/-- Erase the human-readable message and the `accountId` field of a
`connectBroker` success payload (the two fields on which the two files
differ). -/
def ConnectSuccess.core (r : ConnectSuccess) : ConnectSuccess :=
  { r with message := "", accountId := none }

/-- A `connectBroker` outcome up to messages and `accountId`. -/
def ConnectOutcome.core (o : ConnectOutcome) : ConnectOutcome :=
  { o with result := match o.result with
      | .ok r => .ok r.core
      | .error e => .error e.core }

/-- A `getMetrics` outcome up to failure messages. -/
def MetricsOutcome.core (o : MetricsOutcome) : MetricsOutcome :=
  { o with result := eraseErr o.result }

/-- A `getTrades` outcome up to failure messages. -/
def TradesOutcome.core (o : TradesOutcome) : TradesOutcome :=
  { o with result := eraseErr o.result }

/-- A `disconnectBroker` outcome up to failure messages. -/
def DisconnectOutcome.core (o : DisconnectOutcome) : DisconnectOutcome :=
  { o with result := eraseErr o.result }

lemma pagina_connect_core_eq (auth : Option AuthCtx) (data : ConnectData)
    (store : Option UserDoc) (env : ConnectEnv) (now : Nat) :
    (Pagina.connectBroker auth data store env now).core =
    (connectBroker auth data store env now).core := by
  cases auth with
  | none => rfl
  | some a =>
    cases hv : (data.brokerServer == "" || data.mtLogin == "" || data.mtPassword == "") with
    | true =>
      simp [Pagina.connectBroker, connectBroker, Pagina.requireAuth, requireAuth, hv,
            ConnectOutcome.core, OpErr.core]
    | false =>
      cases hl : linkedId store with
      | some id =>
        cases hlk : metaFetch1 env.lookupExisting with
        | ok acct =>
          simp [Pagina.connectBroker, connectBroker, Pagina.requireAuth, requireAuth, hv,
                hl, hlk, ConnectOutcome.core, ConnectSuccess.core]
        | error e =>
          cases hc : metaFetch1 env.create with
          | ok account =>
            simp [Pagina.connectBroker, connectBroker, Pagina.requireAuth, requireAuth, hv,
                  hl, hlk, hc, ConnectOutcome.core, ConnectSuccess.core]
          | error err =>
            cases hae : mentionsAlreadyExists err.message with
            | true =>
              simp [Pagina.connectBroker, connectBroker, Pagina.requireAuth, requireAuth, hv,
                    hl, hlk, hc, hae, ConnectOutcome.core, OpErr.core]
            | false =>
              simp [Pagina.connectBroker, connectBroker, Pagina.requireAuth, requireAuth, hv,
                    hl, hlk, hc, hae, ConnectOutcome.core, OpErr.core]
      | none =>
        cases hc : metaFetch1 env.create with
        | ok account =>
          simp [Pagina.connectBroker, connectBroker, Pagina.requireAuth, requireAuth, hv,
                hl, hc, ConnectOutcome.core, ConnectSuccess.core]
        | error err =>
          cases hae : mentionsAlreadyExists err.message with
          | true =>
            simp [Pagina.connectBroker, connectBroker, Pagina.requireAuth, requireAuth, hv,
                  hl, hc, hae, ConnectOutcome.core, OpErr.core]
          | false =>
            simp [Pagina.connectBroker, connectBroker, Pagina.requireAuth, requireAuth, hv,
                  hl, hc, hae, ConnectOutcome.core, OpErr.core]

lemma pagina_status_eq (auth : Option AuthCtx) (store : Option UserDoc) :
    eraseErr (Pagina.getUserStatus auth store) = eraseErr (getUserStatus auth store) := by
  cases auth <;> rfl

lemma pagina_account_info_eq (auth : Option AuthCtx) (store : Option UserDoc)
    (env : Nat → FetchResult) :
    eraseErr (Pagina.getAccountInfo auth store env) =
    eraseErr (getAccountInfo auth store env) := by
  cases auth <;> rfl

lemma pagina_metrics_eq (auth : Option AuthCtx) (store : Option UserDoc)
    (env : MetricsEnv) :
    (Pagina.getMetrics auth store env).core = (getMetrics auth store env).core := by
  cases auth <;> rfl

lemma pagina_trades_eq (auth : Option AuthCtx) (store : Option UserDoc)
    (env : TradesEnv) :
    (Pagina.getTrades auth store env).core = (getTrades auth store env).core := by
  cases auth <;> rfl

lemma pagina_daily_growth_eq (auth : Option AuthCtx) (store : Option UserDoc)
    (env : Nat → FetchResult) :
    eraseErr (Pagina.getDailyGrowth auth store env) =
    eraseErr (getDailyGrowth auth store env) := by
  cases auth <;> rfl

lemma pagina_disconnect_eq (auth : Option AuthCtx) (store : Option UserDoc)
    (env : Nat → FetchResult) (now : Nat) :
    (Pagina.disconnectBroker auth store env now).core =
    (disconnectBroker auth store env now).core := by
  cases auth <;> rfl

/-- The stored document used by the C10 counterexample. -/
def c10doc : UserDoc := { metaApiAccountId := some "acc-10" }

/-- The connect input used by the C10 counterexample. -/
def c10data : ConnectData := { brokerServer := "Srv", mtLogin := "10", mtPassword := "p" }

/-- The oracle used by the C10 counterexample: the existing-account lookup
succeeds; create and poll are never reached. -/
def c10env : ConnectEnv :=
  { lookupExisting := .success ⟨200, none, some (.jobj [("state", .jstr "DEPLOYED")])⟩
    create := .failure "unused"
    poll := fun _ => .failure "unused" }

/-- C10, counterexample to the claim as stated: on the idempotent-reconnect
path the pagina_Invert `connectBroker` returns a payload carrying
`accountId` while the v2 file's payload has no such field (and their
human-readable messages differ elsewhere), so the same-named operations are
not extensionally equal. -/
theorem claim_C10_counterexample :
    (Pagina.connectBroker (some {}) c10data (some c10doc) c10env 0).result.map
      ConnectSuccess.accountId = .ok (some "acc-10") ∧
    (connectBroker (some {}) c10data (some c10doc) c10env 0).result.map
      ConnectSuccess.accountId = .ok none ∧
    (Except.ok (some "acc-10") : Except OpErr (Option String)) ≠ .ok none :=
  ⟨rfl, rfl, by simp⟩

/-- C10 (amended): the two files define the same seven operations, and each
pair is extensionally equivalent up to human-readable message text — and,
for `connectBroker` only, up to the extra `accountId` field of the
already-linked response: after erasing failure messages (`eraseErr`/`core`)
and, for connect, the success `message`/`accountId` fields, every operation
returns the same result, failure kind, store effect and call counts for
every input and every sequence of store and upstream responses. -/
theorem claim_C10 :
    (∀ auth data store env now,
      (Pagina.connectBroker auth data store env now).core =
      (connectBroker auth data store env now).core) ∧
    (∀ auth store,
      eraseErr (Pagina.getUserStatus auth store) = eraseErr (getUserStatus auth store)) ∧
    (∀ auth store env,
      eraseErr (Pagina.getAccountInfo auth store env) =
      eraseErr (getAccountInfo auth store env)) ∧
    (∀ auth store env,
      (Pagina.getMetrics auth store env).core = (getMetrics auth store env).core) ∧
    (∀ auth store env,
      (Pagina.getTrades auth store env).core = (getTrades auth store env).core) ∧
    (∀ auth store env,
      eraseErr (Pagina.getDailyGrowth auth store env) =
      eraseErr (getDailyGrowth auth store env)) ∧
    (∀ auth store env now,
      (Pagina.disconnectBroker auth store env now).core =
      (disconnectBroker auth store env now).core) :=
  ⟨pagina_connect_core_eq, pagina_status_eq, pagina_account_info_eq,
   pagina_metrics_eq, pagina_trades_eq, pagina_daily_growth_eq,
   pagina_disconnect_eq⟩
